import Mathlib

/-!
Verification of the ScanGuard security-scanner core: a shallow embedding of
the port prober, TLS grader, security-header analyzer, cloud detector,
vulnerability correlator and scan-lifecycle orchestrator, with theorems
settling the specification claims.
-/

namespace ScanGuard

/-- ASCII lower-casing of one character, modelling JavaScript
`String.prototype.toLowerCase` on the ASCII data the scanner handles. -/
def lowerChar (c : Char) : Char :=
  if 'A' ≤ c ∧ c ≤ 'Z' then Char.ofNat (c.toNat + 32) else c

/-- ASCII lower-casing of a string (JavaScript `toLowerCase`). -/
def lowerStr (s : String) : String :=
  String.mk (s.toList.map lowerChar)

/-- Does the character list start with the given pattern list? -/
def startsWithList : List Char → List Char → Bool
  | [], _ => true
  | _ :: _, [] => false
  | p :: ps, c :: cs => p == c && startsWithList ps cs

/-- Substring containment on character lists (JavaScript `String.includes`). -/
def containsList (pat : List Char) : List Char → Bool
  | [] => startsWithList pat []
  | c :: cs => startsWithList pat (c :: cs) || containsList pat cs

/-- JavaScript `s.includes(pat)`. -/
def strContains (s pat : String) : Bool :=
  containsList pat.toList s.toList

/-- Does the character list end with the given pattern list? -/
def endsWithList (pat s : List Char) : Bool :=
  startsWithList pat.reverse s.reverse

/-- Anchored-suffix test, modelling a regular expression of the shape
`/...literal...$/` applied with `RegExp.test`. -/
def strEndsWith (s pat : String) : Bool :=
  endsWithList pat.toList s.toList

/-! ## TLS posture analyzer (`ssl-analyzer`, `src/unnamed/part_005`)

`CertificateInfo` mirrors the analyzer's certificate interface.  Dates are
modelled as integer milliseconds since the epoch (the value of
`new Date(x).getTime()`), so `valid_to` is the expiry instant and `now` the
clock reading taken by the function. -/

structure CertificateInfo where
  subject : Option String
  issuer : Option String
  valid_from : String
  valid_to : Int
  fingerprint : String
  serialNumber : String
  sigalg : String
  bits : Option Nat
deriving DecidableEq

structure SSLLabsGrade where
  grade : String
  score : Int
  vulnerabilities : List String
deriving DecidableEq

/-- Milliseconds per day (`1000 * 60 * 60 * 24`). -/
def msPerDay : Int := 1000 * 60 * 60 * 24

/-- `Math.ceil(diff / msPerDay)` for an integer millisecond difference. -/
def msCeilDays (diff : Int) : Int := -((-diff).fdiv msPerDay)

/-- The key-size condition `certInfo.bits && certInfo.bits < 2048`:
JavaScript truthiness makes a key size of `0` skip the deduction. -/
def keyWeakCond (bits : Option Nat) : Bool :=
  match bits with
  | some b => !(b == 0) && decide (b < 2048)
  | none => false

/-- The signature condition
`certInfo.sigalg && certInfo.sigalg.toLowerCase().includes('sha1')`. -/
def sigWeakCond (sigalg : String) : Bool :=
  !(sigalg == "") && strContains (lowerStr sigalg) "sha1"

/-- The grade ladder at the end of `calculateSslGrade`. -/
def gradeOfScore (score : Int) : String :=
  if score ≥ 95 then "A+"
  else if score ≥ 90 then "A"
  else if score ≥ 80 then "B"
  else if score ≥ 70 then "C"
  else if score ≥ 60 then "D"
  else "F"

/-- `calculateSslGrade` from the SSL analyzer: deduction scoring over the
certificate and the supported-protocol list, clamped below at 0. -/
def calculateSslGrade (certInfo : CertificateInfo) (supportedProtocols : List String)
    (now : Int) : SSLLabsGrade :=
  let score : Int := 100
  let vulns : List String := []
  let (score, vulns) :=
    if certInfo.valid_to ≤ now then
      (score - 50, vulns ++ ["Certificate has expired"])
    else if msCeilDays (certInfo.valid_to - now) < 30 then
      (score - 20, vulns ++ ["Certificate expires soon (less than 30 days)"])
    else (score, vulns)
  let (score, vulns) :=
    if keyWeakCond certInfo.bits then
      (score - 30, vulns ++ ["Weak key size (less than 2048 bits)"])
    else (score, vulns)
  let (score, vulns) :=
    if sigWeakCond certInfo.sigalg then
      (score - 20, vulns ++ ["Weak signature algorithm (SHA-1)"])
    else (score, vulns)
  let (score, vulns) :=
    if supportedProtocols.contains "TLSv1" || supportedProtocols.contains "TLSv1.1" then
      (score - 15, vulns ++ ["Supports deprecated TLS versions"])
    else (score, vulns)
  let (score, vulns) :=
    if !(supportedProtocols.contains "TLSv1.3") then
      (score - 10, vulns ++ ["TLS 1.3 not supported"])
    else (score, vulns)
  { grade := gradeOfScore score, score := max 0 score, vulnerabilities := vulns }

/-- Deduction trigger: the certificate is already expired (`expiryDate <= now`). -/
def isExpired (c : CertificateInfo) (now : Int) : Bool :=
  decide (c.valid_to ≤ now)

/-- Deduction trigger: fewer than 30 days until expiry. -/
def expiresSoon (c : CertificateInfo) (now : Int) : Bool :=
  decide (msCeilDays (c.valid_to - now) < 30)

/-- Deduction trigger: TLSv1 or TLSv1.1 in the supported-protocol list. -/
def oldTlsSupported (ps : List String) : Bool :=
  ps.contains "TLSv1" || ps.contains "TLSv1.1"

/-- Deduction trigger: TLSv1.3 absent from the supported-protocol list. -/
def tls13Missing (ps : List String) : Bool :=
  !(ps.contains "TLSv1.3")

/-- `calculateSslGrade` as a function of its six deduction triggers alone;
used to reduce grading facts to a finite boolean check. -/
def mkGrade (expired soon weakKey sha1 oldTls no13 : Bool) : SSLLabsGrade :=
  let score : Int := 100
  let vulns : List String := []
  let (score, vulns) :=
    if expired then (score - 50, vulns ++ ["Certificate has expired"])
    else if soon then (score - 20, vulns ++ ["Certificate expires soon (less than 30 days)"])
    else (score, vulns)
  let (score, vulns) :=
    if weakKey then (score - 30, vulns ++ ["Weak key size (less than 2048 bits)"])
    else (score, vulns)
  let (score, vulns) :=
    if sha1 then (score - 20, vulns ++ ["Weak signature algorithm (SHA-1)"])
    else (score, vulns)
  let (score, vulns) :=
    if oldTls then (score - 15, vulns ++ ["Supports deprecated TLS versions"])
    else (score, vulns)
  let (score, vulns) :=
    if no13 then (score - 10, vulns ++ ["TLS 1.3 not supported"])
    else (score, vulns)
  { grade := gradeOfScore score, score := max 0 score, vulnerabilities := vulns }

/-- The TLS score the specification sentence describes, word for word:
deduct 30 whenever the key size is present and under 2048 bits (no
JavaScript-truthiness exception for the value 0). -/
def specSslScore (c : CertificateInfo) (ps : List String) (now : Int) : Int :=
  max 0 (100
    - (if c.valid_to ≤ now then 50
       else if msCeilDays (c.valid_to - now) < 30 then 20 else 0)
    - (match c.bits with
       | some b => if b < 2048 then 30 else 0
       | none => 0)
    - (if strContains (lowerStr c.sigalg) "sha1" then 20 else 0)
    - (if oldTlsSupported ps then 15 else 0)
    - (if tls13Missing ps then 10 else 0))

/-- RSA certificate reported with a zero key size: present, under 2048
bits, but skipped by the JavaScript truthiness check. -/
def zeroKeyCert : CertificateInfo :=
  { subject := some "CN=example.com", issuer := some "CN=Example CA"
    valid_from := "Jan 1 00:00:00 2026 GMT", valid_to := 100 * msPerDay
    fingerprint := "AA:BB", serialNumber := "01"
    sigalg := "sha256WithRSAEncryption", bits := some 0 }

/-- A healthy certificate: far from expiry, strong key, SHA-256 signature. -/
def goodCert : CertificateInfo :=
  { subject := some "CN=example.com", issuer := some "CN=Example CA"
    valid_from := "Jan 1 00:00:00 2026 GMT", valid_to := 100 * msPerDay
    fingerprint := "AA:BB", serialNumber := "01"
    sigalg := "sha256WithRSAEncryption", bits := some 4096 }

/-- An expired certificate with a weak key and a SHA-1 signature. -/
def expiredWeakCert : CertificateInfo :=
  { subject := some "CN=example.com", issuer := some "CN=Example CA"
    valid_from := "Jan 1 00:00:00 2020 GMT", valid_to := -1
    fingerprint := "AA:BB", serialNumber := "01"
    sigalg := "sha1WithRSAEncryption", bits := some 1024 }

/-! ## Security-header analyzer (`src/server/security-headers-analyzer.ts`)

`SecurityHeadersAnalysis` mirrors the analyzer's parsed-header record.
`Option` is `undefined`; a present-but-empty string is distinguished because
JavaScript truthiness treats `''` as falsy wherever the source tests a raw
header value. -/

structure HstsInfo where
  present : Bool
  maxAge : Option Nat := none
  includeSubDomains : Bool := false
  preload : Bool := false
deriving DecidableEq

structure CspInfo where
  present : Bool
  directives : List String := []
  hasUnsafeInline : Bool := false
  hasUnsafeEval : Bool := false
deriving DecidableEq

structure SecurityHeadersAnalysis where
  hsts : Option HstsInfo := none
  csp : Option CspInfo := none
  xFrameOptions : Option String := none
  xContentTypeOptions : Option String := none
  xXSSProtection : Option String := none
  referrerPolicy : Option String := none
  permissionsPolicy : Option String := none
  expectCT : Option String := none
  crossOriginEmbedderPolicy : Option String := none
  crossOriginOpenerPolicy : Option String := none
  crossOriginResourcePolicy : Option String := none
deriving DecidableEq

/-- JavaScript truthiness of a `string | undefined` header value. -/
def optPresent (s : Option String) : Bool :=
  match s with
  | none => false
  | some v => !(v == "")

/-- The optional chain `analysis.hsts?.present`. -/
def hstsPresent (a : SecurityHeadersAnalysis) : Bool :=
  match a.hsts with
  | some h => h.present
  | none => false

/-- The optional chain `analysis.csp?.present`. -/
def cspPresent (a : SecurityHeadersAnalysis) : Bool :=
  match a.csp with
  | some c => c.present
  | none => false

/-- The HSTS max-age condition `!maxAge || maxAge < 31536000` (one year);
`0` is falsy in JavaScript, and also below the threshold. -/
def hstsMaxAgeWeak (h : HstsInfo) : Bool :=
  match h.maxAge with
  | none => true
  | some m => m == 0 || decide (m < 31536000)

structure HeaderScore where
  score : Int
  grade : String
deriving DecidableEq

/-- HSTS block of `calculateSecurityScore` (20 points). -/
def hstsDeduction (a : SecurityHeadersAnalysis) : Int :=
  match a.hsts with
  | none => 20
  | some h =>
    if !h.present then 20
    else (if hstsMaxAgeWeak h then 5 else 0)
      + (if !h.includeSubDomains then 3 else 0)
      + (if !h.preload then 2 else 0)

/-- CSP block of `calculateSecurityScore` (25 points). -/
def cspDeduction (a : SecurityHeadersAnalysis) : Int :=
  match a.csp with
  | none => 25
  | some c =>
    if !c.present then 25
    else (if c.hasUnsafeInline then 8 else 0)
      + (if c.hasUnsafeEval then 7 else 0)
      + (if c.directives.length < 3 then 5 else 0)

/-- X-Frame-Options block of `calculateSecurityScore` (15 points). -/
def xfoDeduction (a : SecurityHeadersAnalysis) : Int :=
  match a.xFrameOptions with
  | none => 15
  | some v =>
    if v == "" then 15
    else if lowerStr v == "allowall" then 10
    else 0

/-- X-Content-Type-Options block of `calculateSecurityScore` (10 points). -/
def xctoDeduction (a : SecurityHeadersAnalysis) : Int :=
  match a.xContentTypeOptions with
  | none => 10
  | some v =>
    if v == "" then 10
    else if !(lowerStr v == "nosniff") then 10
    else 0

/-- X-XSS-Protection block of `calculateSecurityScore` (10 points). -/
def xxssDeduction (a : SecurityHeadersAnalysis) : Int :=
  match a.xXSSProtection with
  | none => 10
  | some v =>
    if v == "" then 10
    else if v == "0" then 5
    else 0

/-- Referrer-Policy block of `calculateSecurityScore` (8 points). -/
def referrerDeduction (a : SecurityHeadersAnalysis) : Int :=
  match a.referrerPolicy with
  | none => 8
  | some v =>
    if v == "" then 8
    else if ["unsafe-url", "no-referrer-when-downgrade"].contains (lowerStr v) then 4
    else 0

/-- Cross-Origin-* block of `calculateSecurityScore` (12 points total). -/
def crossOriginDeduction (a : SecurityHeadersAnalysis) : Int :=
  (if !optPresent a.crossOriginEmbedderPolicy then 4 else 0)
  + (if !optPresent a.crossOriginOpenerPolicy then 4 else 0)
  + (if !optPresent a.crossOriginResourcePolicy then 4 else 0)

/-- The header grade ladder at the end of `calculateSecurityScore`. -/
def headerGradeOfScore (score : Int) : String :=
  if score ≥ 95 then "A+"
  else if score ≥ 85 then "A"
  else if score ≥ 75 then "B"
  else if score ≥ 65 then "C"
  else if score ≥ 50 then "D"
  else "F"

/-- `calculateSecurityScore`: weighted deduction scoring of the parsed
security headers (each block applied in source order, so the total is
100 minus the per-header deductions), clamped below at 0, with the
header grade ladder. -/
def calculateSecurityScore (a : SecurityHeadersAnalysis) : HeaderScore :=
  let score : Int := 100 - hstsDeduction a - cspDeduction a - xfoDeduction a
    - xctoDeduction a - xxssDeduction a - referrerDeduction a - crossOriginDeduction a
  let score := max 0 score
  { score := score, grade := headerGradeOfScore score }

structure HeaderIssues where
  missingHeaders : List String
  weakHeaders : List String
deriving DecidableEq

/-- `identifyIssues`: the missing-header list and the weak-configuration
list.  Note the exact (case-sensitive) comparison with `'ALLOWALL'`, unlike
the lower-cased comparison used by `calculateSecurityScore`. -/
def identifyIssues (a : SecurityHeadersAnalysis) : HeaderIssues :=
  let missingHeaders :=
    (if !(hstsPresent a) then ["Strict-Transport-Security"] else [])
    ++ (if !(cspPresent a) then ["Content-Security-Policy"] else [])
    ++ (if !(optPresent a.xFrameOptions) then ["X-Frame-Options"] else [])
    ++ (if !(optPresent a.xContentTypeOptions) then ["X-Content-Type-Options"] else [])
    ++ (if !(optPresent a.xXSSProtection) then ["X-XSS-Protection"] else [])
    ++ (if !(optPresent a.referrerPolicy) then ["Referrer-Policy"] else [])
    ++ (if !(optPresent a.crossOriginEmbedderPolicy) then ["Cross-Origin-Embedder-Policy"] else [])
    ++ (if !(optPresent a.crossOriginOpenerPolicy) then ["Cross-Origin-Opener-Policy"] else [])
    ++ (if !(optPresent a.crossOriginResourcePolicy) then ["Cross-Origin-Resource-Policy"] else [])
  let weakHeaders :=
    (if hstsPresent a && (match a.hsts with | some h => hstsMaxAgeWeak h | none => false) then
      ["HSTS max-age is less than 1 year"] else [])
    ++ (match a.csp with
        | some c =>
          if c.present then
            (if c.hasUnsafeInline then ["CSP allows 'unsafe-inline'"] else [])
            ++ (if c.hasUnsafeEval then ["CSP allows 'unsafe-eval'"] else [])
          else []
        | none => [])
    ++ (if a.xFrameOptions == some "ALLOWALL" then ["X-Frame-Options set to ALLOWALL"] else [])
    ++ (if a.xXSSProtection == some "0" then ["X-XSS-Protection disabled"] else [])
  { missingHeaders := missingHeaders, weakHeaders := weakHeaders }

/-- The analysis `analyzeHeaders` produces for a response carrying no
security headers at all. -/
def emptyHeadersAnalysis : SecurityHeadersAnalysis :=
  { hsts := some { present := false }
    csp := some { present := false, directives := [] } }

/-- A response with all nine recognized headers present and maximally
strong. -/
def strongHeadersAnalysis : SecurityHeadersAnalysis :=
  { hsts := some { present := true, maxAge := some 63072000
                   includeSubDomains := true, preload := true }
    csp := some { present := true
                  directives := ["default-src", "script-src", "object-src"]
                  hasUnsafeInline := false, hasUnsafeEval := false }
    xFrameOptions := some "DENY"
    xContentTypeOptions := some "nosniff"
    xXSSProtection := some "1; mode=block"
    referrerPolicy := some "strict-origin-when-cross-origin"
    crossOriginEmbedderPolicy := some "require-corp"
    crossOriginOpenerPolicy := some "same-origin"
    crossOriginResourcePolicy := some "same-origin" }

/-! ## Cloud-security analyzer (`src/server/cloud-security-analyzer.ts`)

Each provider regex is anchored only at the end (`RegExp.test` searches),
so every pattern in the table is a suffix test; the single pattern with an
inner `.*` additionally requires an infix before the suffix. -/

inductive Severity where
  | low
  | medium
  | high
  | critical
deriving DecidableEq

structure CloudSecurityFinding where
  id : String
  severity : Severity
  title : String
  description : String
  recommendation : String
  complianceFramework : List String
deriving DecidableEq

structure CloudProvider where
  name : String
  patterns : List (String → Bool)

/-- The pattern `/.*\.execute-api\..*\.amazonaws\.com$/`. -/
def executeApiPat (h : String) : Bool :=
  strEndsWith h ".amazonaws.com"
    && containsList ".execute-api.".toList
        (h.toList.take (h.toList.length - ".amazonaws.com".toList.length))

/-- `CLOUD_PROVIDERS`: the ordered provider → pattern table. -/
def CLOUD_PROVIDERS : List CloudProvider :=
  [ { name := "aws"
      patterns :=
        [ fun h => strEndsWith h ".amazonaws.com"
        , fun h => strEndsWith h ".aws.com"
        , fun h => strEndsWith h ".elasticbeanstalk.com"
        , fun h => strEndsWith h ".elb.amazonaws.com"
        , fun h => strEndsWith h ".s3.amazonaws.com"
        , fun h => strEndsWith h ".cloudfront.net"
        , executeApiPat ] }
  , { name := "azure"
      patterns :=
        [ fun h => strEndsWith h ".azure.com"
        , fun h => strEndsWith h ".azurewebsites.net"
        , fun h => strEndsWith h ".windows.net"
        , fun h => strEndsWith h ".cloudapp.net"
        , fun h => strEndsWith h ".azureedge.net"
        , fun h => strEndsWith h ".azurecontainer.io"
        , fun h => strEndsWith h ".database.windows.net" ] }
  , { name := "gcp"
      patterns :=
        [ fun h => strEndsWith h ".googleapis.com"
        , fun h => strEndsWith h ".googleusercontent.com"
        , fun h => strEndsWith h ".appspot.com"
        , fun h => strEndsWith h ".cloudfunctions.net"
        , fun h => strEndsWith h ".run.app"
        , fun h => strEndsWith h ".storage.googleapis.com"
        , fun h => strEndsWith h ".googlehosted.com" ] }
  , { name := "digitalocean"
      patterns :=
        [ fun h => strEndsWith h ".digitaloceanspaces.com"
        , fun h => strEndsWith h ".ondigitalocean.app"
        , fun h => strEndsWith h ".do.dev" ] }
  , { name := "cloudflare"
      patterns :=
        [ fun h => strEndsWith h ".cloudflare.com"
        , fun h => strEndsWith h ".workers.dev"
        , fun h => strEndsWith h ".pages.dev" ] }
  , { name := "vercel"
      patterns :=
        [ fun h => strEndsWith h ".vercel.app"
        , fun h => strEndsWith h ".now.sh" ] }
  , { name := "netlify"
      patterns :=
        [ fun h => strEndsWith h ".netlify.app"
        , fun h => strEndsWith h ".netlify.com" ] } ]

/-- `inferResourceType`: provider-specific substring heuristic. -/
def inferResourceType (hostname provider : String) : String :=
  if provider == "aws" then
    if strContains hostname "s3" then "storage"
    else if strContains hostname "elb" || strContains hostname "loadbalancer" then "loadbalancer"
    else if strContains hostname "rds" then "database"
    else if strContains hostname "cloudfront" then "cdn"
    else if strContains hostname "execute-api" then "api-gateway"
    else if strContains hostname "elasticbeanstalk" then "application"
    else "compute"
  else if provider == "azure" then
    if strContains hostname "azurewebsites" then "webapp"
    else if strContains hostname "database" then "database"
    else if strContains hostname "storage" then "storage"
    else if strContains hostname "cloudapp" then "compute"
    else if strContains hostname "azureedge" then "cdn"
    else "application"
  else if provider == "gcp" then
    if strContains hostname "storage" then "storage"
    else if strContains hostname "appspot" then "appengine"
    else if strContains hostname "cloudfunctions" then "functions"
    else if strContains hostname "run.app" then "cloudrun"
    else "compute"
  else "application"

/-- One pass of the provider table over a hostname: the first provider
with a matching pattern wins. -/
def findPatternMatch (hostname : String) : Option (String × String) :=
  CLOUD_PROVIDERS.findSome? fun provider =>
    if provider.patterns.any (fun pat => pat hostname) then
      some (provider.name, inferResourceType hostname provider.name)
    else none

/-- `detectCloudProvider`: direct hostname patterns first; only when no
pattern matches, the DNS reverse-lookup fallback (`reverseHostnames`,
`none` when the lookup failed) is consulted with the same table. -/
def detectCloudProvider (hostname : String) (reverseHostnames : Option (List String)) :
    Option (String × String) :=
  match findPatternMatch hostname with
  | some r => some r
  | none =>
    match reverseHostnames with
    | none => none
    | some hs => hs.findSome? findPatternMatch

/-- `analyzeAWSResource`: the AWS rule set. -/
def analyzeAWSResource (resourceType hostname : String) : List CloudSecurityFinding :=
  (if resourceType == "storage" && strContains hostname "s3" then
    [ { id := "aws-s3-public-access", severity := .high
        title := "S3 Bucket Public Access"
        description := "S3 bucket appears to be publicly accessible via direct URL"
        recommendation := "Review bucket policy and ACLs. Implement least privilege access and consider using CloudFront for public content."
        complianceFramework := ["CIS", "AWS-Foundational"] } ]
   else [])
  ++ (if resourceType == "cdn" && strContains hostname "cloudfront" then
    [ { id := "aws-cloudfront-security-headers", severity := .medium
        title := "CloudFront Security Headers"
        description := "Verify that CloudFront distribution includes security headers"
        recommendation := "Configure CloudFront to add security headers like HSTS, CSP, X-Content-Type-Options"
        complianceFramework := ["OWASP", "CIS"] } ]
   else [])
  ++ (if resourceType == "loadbalancer" then
    [ { id := "aws-elb-ssl-policy", severity := .medium
        title := "Load Balancer SSL Policy"
        description := "Ensure load balancer uses strong SSL/TLS policy"
        recommendation := "Configure ELB to use predefined security policy ELBSecurityPolicy-TLS-1-2-2017-01 or newer"
        complianceFramework := ["CIS", "PCI-DSS"] } ]
   else [])

/-- `analyzeAzureResource`: the Azure rule set. -/
def analyzeAzureResource (resourceType : String) : List CloudSecurityFinding :=
  (if resourceType == "webapp" then
    [ { id := "azure-webapp-https", severity := .high
        title := "Azure Web App HTTPS Enforcement"
        description := "Verify HTTPS-only access is enforced for Azure Web App"
        recommendation := "Enable HTTPS Only setting in Azure portal and redirect HTTP to HTTPS"
        complianceFramework := ["CIS", "Azure-Security-Benchmark"] }
    , { id := "azure-webapp-managed-identity", severity := .medium
        title := "Managed Identity Configuration"
        description := "Consider using Azure Managed Identity for secure resource access"
        recommendation := "Enable system-assigned managed identity to eliminate stored credentials"
        complianceFramework := ["Azure-Security-Benchmark"] } ]
   else [])
  ++ (if resourceType == "storage" then
    [ { id := "azure-storage-access", severity := .high
        title := "Azure Storage Account Security"
        description := "Review storage account access configuration"
        recommendation := "Disable public blob access and use private endpoints where possible"
        complianceFramework := ["CIS", "Azure-Security-Benchmark"] } ]
   else [])

/-- `analyzeGCPResource`: the GCP rule set. -/
def analyzeGCPResource (resourceType : String) : List CloudSecurityFinding :=
  (if resourceType == "appengine" then
    [ { id := "gcp-appengine-security", severity := .medium
        title := "App Engine Security Configuration"
        description := "Review App Engine security settings and IAM policies"
        recommendation := "Implement least privilege IAM roles and enable audit logging"
        complianceFramework := ["CIS", "GCP-Security-Benchmark"] } ]
   else [])
  ++ (if resourceType == "storage" then
    [ { id := "gcp-storage-bucket-policy", severity := .high
        title := "Cloud Storage Bucket Policy"
        description := "Verify bucket access controls and public access prevention"
        recommendation := "Enable uniform bucket-level access and review bucket IAM policies"
        complianceFramework := ["CIS", "GCP-Security-Benchmark"] } ]
   else [])
  ++ (if resourceType == "cloudrun" then
    [ { id := "gcp-cloudrun-auth", severity := .medium
        title := "Cloud Run Authentication"
        description := "Ensure proper authentication is configured for Cloud Run services"
        recommendation := "Configure IAM authentication and avoid allowing unauthenticated access"
        complianceFramework := ["GCP-Security-Benchmark"] } ]
   else [])

/-- `analyzeGenericCloudResource`: the two baseline findings. -/
def analyzeGenericCloudResource : List CloudSecurityFinding :=
  [ { id := "cloud-https-enforcement", severity := .medium
      title := "HTTPS Enforcement"
      description := "Verify that HTTPS is properly enforced for cloud resources"
      recommendation := "Configure automatic HTTPS redirect and use strong TLS configuration"
      complianceFramework := ["OWASP", "General"] }
  , { id := "cloud-access-logging", severity := .low
      title := "Access Logging"
      description := "Ensure comprehensive access logging is enabled"
      recommendation := "Enable access logs and integrate with SIEM for monitoring"
      complianceFramework := ["General"] } ]

/-- Per-finding deduction of the cloud score (`25/15/10/5`). -/
def sevDeduction : Severity → Int
  | .critical => 25
  | .high => 15
  | .medium => 10
  | .low => 5

/-- Number of findings with the given severity. -/
def countSev (findings : List CloudSecurityFinding) (s : Severity) : Nat :=
  (findings.filter fun f => decide (f.severity = s)).length

/-- Cloud score of `performCloudSecurityAnalysis`: start at 100, subtract
`sevDeduction` per finding, clamp below at 0. -/
def cloudScoreOf (findings : List CloudSecurityFinding) : Int :=
  max 0 (findings.foldl (fun score f => score - sevDeduction f.severity) 100)

/-- Aggregate risk level of `performCloudSecurityAnalysis`. -/
def cloudRiskLevelOf (findings : List CloudSecurityFinding) : Severity :=
  let criticalCount := (findings.filter fun f => decide (f.severity = .critical)).length
  let highCount := (findings.filter fun f => decide (f.severity = .high)).length
  if 0 < criticalCount then .critical
  else if 2 < highCount then .high
  else if 0 < highCount
      ∨ 3 < (findings.filter fun f => decide (f.severity = .medium)).length then .medium
  else .low

/-- Lowercase ASCII letter test, for the AWS region pattern `[a-z]`. -/
def isLowerAlpha (c : Char) : Bool := 'a' ≤ c && c ≤ 'z'

/-- ASCII digit test, for the AWS region pattern `\d`. -/
def isDigitCh (c : Char) : Bool := '0' ≤ c && c ≤ '9'

/-- One anchored attempt of the AWS region pattern `([a-z]{2}-[a-z]+-\d)`
at the head of the character list, returning the captured region. -/
def awsRegionAt (cs : List Char) : Option (List Char) :=
  match cs with
  | a :: b :: '-' :: rest =>
    if isLowerAlpha a && isLowerAlpha b then
      let run := rest.takeWhile isLowerAlpha
      match run, rest.drop run.length with
      | [], _ => none
      | _ :: _, '-' :: d :: _ =>
        if isDigitCh d then some (a :: b :: '-' :: (run ++ ['-', d])) else none
      | _ :: _, _ => none
    else none
  | _ => none

/-- Leftmost match of the AWS region pattern over a character list. -/
def searchAwsRegion : List Char → Option (List Char)
  | [] => none
  | c :: cs =>
    match awsRegionAt (c :: cs) with
    | some r => some r
    | none => searchAwsRegion cs

/-- Leftmost match of a literal-alternation regex (alternatives tried in
order at each position, as the JavaScript engine does). -/
def searchAlts (alts : List String) : List Char → Option String
  | [] => none
  | c :: cs =>
    match alts.findSome? (fun alt =>
        if startsWithList alt.toList (c :: cs) then some alt else none) with
    | some r => some r
    | none => searchAlts alts cs

def azureRegions : List String :=
  ["eastus", "westus", "centralus", "northeurope", "westeurope", "southeastasia", "eastasia"]

def gcpRegions : List String :=
  ["us-central1", "us-east1", "us-west1", "europe-west1", "asia-east1"]

/-- `extractRegion`: best-effort region extraction per provider. -/
def extractRegion (hostname provider : String) : Option String :=
  if provider == "aws" then (searchAwsRegion hostname.toList).map String.mk
  else if provider == "azure" then searchAlts azureRegions hostname.toList
  else if provider == "gcp" then searchAlts gcpRegions hostname.toList
  else none

structure CloudResourceAnalysis where
  provider : String
  resourceType : String
  resourceId : String
  region : Option String
  findings : List CloudSecurityFinding
  score : Int
  riskLevel : Severity
deriving DecidableEq

/-- `performCloudSecurityAnalysis`: dispatch to the provider rule set,
then score and aggregate the findings. -/
def performCloudSecurityAnalysis (cloudInfo : String × String) (hostname : String) :
    CloudResourceAnalysis :=
  let findings :=
    if cloudInfo.1 == "aws" then analyzeAWSResource cloudInfo.2 hostname
    else if cloudInfo.1 == "azure" then analyzeAzureResource cloudInfo.2
    else if cloudInfo.1 == "gcp" then analyzeGCPResource cloudInfo.2
    else analyzeGenericCloudResource
  { provider := cloudInfo.1
    resourceType := cloudInfo.2
    resourceId := hostname
    region := extractRegion hostname cloudInfo.1
    findings := findings
    score := cloudScoreOf findings
    riskLevel := cloudRiskLevelOf findings }

/-! ## Port prober and vulnerability correlator (`src/unnamed/part_003`)

`scanPort` attaches exactly one listener outcome to each probe: the socket
either connects, times out, or errors.  The probe itself never rejects;
`ConnectOutcome` is the environment's answer for one connection attempt. -/

inductive ConnectOutcome where
  | success
  | timeout
  | connError
deriving DecidableEq

structure PortProbeResult where
  port : Nat
  state : String
  service : Option String
  protocol : String
deriving DecidableEq

/-- `getServiceName`: static port → service-name table. -/
def getServiceName (port : Nat) : String :=
  match port with
  | 21 => "ftp"
  | 22 => "ssh"
  | 23 => "telnet"
  | 25 => "smtp"
  | 53 => "dns"
  | 80 => "http"
  | 110 => "pop3"
  | 143 => "imap"
  | 443 => "https"
  | 993 => "imaps"
  | 995 => "pop3s"
  | 3389 => "rdp"
  | 5432 => "postgresql"
  | 3306 => "mysql"
  | 6379 => "redis"
  | 27017 => "mongodb"
  | _ => "unknown"

/-- `getRiskLevel`: static port risk classification (the service argument
is accepted but unused, as in the source). -/
def getRiskLevel (port : Nat) (service : String) : String :=
  if [21, 23, 513, 514, 515, 79, 111].contains port then "high"
  else if [22, 3389, 5432, 3306, 6379, 27017].contains port then "medium"
  else if [80, 443].contains port then "low"
  else "medium"

/-- `scanPort`: one TCP probe, classified from the single connection
outcome.  Total by construction — every outcome maps to a result. -/
def scanPort (host : String) (port : Nat) (outcome : ConnectOutcome) : PortProbeResult :=
  match outcome with
  | .success => { port := port, state := "open", service := some (getServiceName port), protocol := "tcp" }
  | .timeout => { port := port, state := "filtered", service := none, protocol := "tcp" }
  | .connError => { port := port, state := "closed", service := none, protocol := "tcp" }

structure VulnTemplate where
  title : String
  description : String
  severity : String
  recommendation : String
deriving DecidableEq

def sshVuln : VulnTemplate :=
  { title := "SSH Service Exposed"
    description := "SSH service is publicly accessible. Ensure strong authentication and consider restricting access."
    severity := "medium"
    recommendation := "Use key-based authentication, disable root login, and consider IP whitelisting." }

def ftpVuln : VulnTemplate :=
  { title := "FTP Service Detected"
    description := "FTP service detected. FTP transmits credentials in plain text."
    severity := "high"
    recommendation := "Replace FTP with SFTP or FTPS for secure file transfers." }

def telnetVuln : VulnTemplate :=
  { title := "Telnet Service Exposed"
    description := "Telnet service detected. Telnet transmits data in plain text."
    severity := "high"
    recommendation := "Replace Telnet with SSH for secure remote access." }

def dbVuln (port : Nat) : VulnTemplate :=
  { title := "Database Service Exposed"
    description := "Database service on port " ++ toString port ++ " is publicly accessible."
    severity := "high"
    recommendation := "Restrict database access to trusted networks only and ensure strong authentication." }

/-- `analyzeVulnerabilities`: the table-driven correlator over port scan
results; only `open` results contribute, in input order, with the checks
applied in source order (22, 21, 23, database ports). -/
def analyzeVulnerabilities : List PortProbeResult → List VulnTemplate
  | [] => []
  | r :: rest =>
    (if r.state == "open" then
      (if r.port == 22 then [sshVuln] else [])
      ++ (if r.port == 21 then [ftpVuln] else [])
      ++ (if r.port == 23 then [telnetVuln] else [])
      ++ (if [3306, 5432, 27017, 6379].contains r.port then [dbVuln r.port] else [])
     else [])
    ++ analyzeVulnerabilities rest

/-! ## TLS analyzer entry point (`analyzeSslCertificate`)

The probe steps are I/O; the embedding takes their outcomes as arguments:
`certResult` is the settled result of `getCertificateInfo` (`Except.error`
when the certificate fetch rejected), the protocol and cipher lists are the
results of `analyzeSslConfiguration` (which never rejects), and `hasHSTS`
the result of `checkHSTS` (which never rejects). -/

structure InsertSslAnalysis where
  scanId : String
  hostname : String
  certificateValid : Bool
  certificateExpiry : Option Int
  issuer : String
  subject : String
  signatureAlgorithm : String
  keySize : Option Nat
  protocolVersions : List String
  cipherSuites : List String
  grade : String
  hasHSTS : Bool
  vulnerabilities : List String
  score : Int
  daysUntilExpiry : Option Int
deriving DecidableEq

/-- `formatCertificateField` on the already-stringified field: a missing
or empty (falsy) field becomes `"Unknown"`. -/
def formatCertificateField (field : Option String) : String :=
  match field with
  | none => "Unknown"
  | some s => if s == "" then "Unknown" else s

/-- `analyzeSslCertificate`: assembles the TLS posture row, or the sentinel
failed posture when certificate retrieval raised. -/
def analyzeSslCertificate (scanId hostname : String)
    (certResult : Except String CertificateInfo)
    (supportedProtocols supportedCiphers : List String)
    (hasHSTS : Bool) (now : Int) : InsertSslAnalysis :=
  match certResult with
  | .ok certInfo =>
    let gradeInfo := calculateSslGrade certInfo supportedProtocols now
    { scanId := scanId
      hostname := hostname
      certificateValid := decide (now < certInfo.valid_to)
      certificateExpiry := some certInfo.valid_to
      issuer := formatCertificateField certInfo.issuer
      subject := formatCertificateField certInfo.subject
      signatureAlgorithm := certInfo.sigalg
      keySize := certInfo.bits
      protocolVersions := supportedProtocols
      cipherSuites := supportedCiphers
      grade := gradeInfo.grade
      hasHSTS := hasHSTS
      vulnerabilities := gradeInfo.vulnerabilities
      score := gradeInfo.score
      daysUntilExpiry := some (msCeilDays (certInfo.valid_to - now)) }
  | .error _ =>
    { scanId := scanId
      hostname := hostname
      certificateValid := false
      certificateExpiry := none
      issuer := "Unknown"
      subject := "Unknown"
      signatureAlgorithm := "Unknown"
      keySize := none
      protocolVersions := []
      cipherSuites := []
      grade := "F"
      hasHSTS := false
      vulnerabilities := ["SSL/TLS connection failed"]
      score := 0
      daysUntilExpiry := none }

/-! ## Scan orchestrator and storage (`performScan`, `MemStorage`)

The persistence layer of the repository (`MemStorage`) is a process-local
map whose operations never throw, so inside `performScan` the only
statement that can raise after the `running` update is the URL parse
(`new URL(url)`); the analyzer invocations are each wrapped in their own
`try`.  `ScanEnv` carries the settled outcome of every I/O step of one
run, and `performScanOps` is the sequence of storage writes the run
performs, in order. -/

inductive ScanStatus where
  | pending
  | running
  | completed
  | failed
deriving DecidableEq

structure ResultsSummary where
  totalPorts : Nat
  openPorts : Nat
  vulnerabilities : Nat
  sslAnalyzed : Bool
  securityHeadersAnalyzed : Bool
deriving DecidableEq

structure ScanRec where
  id : String
  url : String
  status : ScanStatus
  results : Option ResultsSummary
  createdAt : Int
  completedAt : Option Int
  errorMessage : Option String
deriving DecidableEq

structure InsertScanResult where
  scanId : String
  port : Nat
  protocol : String
  service : String
  version : Option String
  state : String
  riskLevel : String
deriving DecidableEq

structure InsertVulnerability where
  scanId : String
  title : String
  description : String
  severity : String
  recommendation : String
deriving DecidableEq

structure InsertSecurityHeadersRec where
  scanId : String
  hostname : String
  analysis : SecurityHeadersAnalysis
  securityScore : Int
  grade : String
  missingHeaders : List String
  weakHeaders : List String
deriving DecidableEq

inductive StorageOp where
  | setRunning
  | addScanResult (r : InsertScanResult)
  | addVulnerability (v : InsertVulnerability)
  | addSslAnalysis (s : InsertSslAnalysis)
  | addSecurityHeaders (h : InsertSecurityHeadersRec)
  | setCompleted (summary : ResultsSummary) (t : Int)
  | setFailed (msg : String) (t : Int)
deriving DecidableEq

/-- The slice of `MemStorage` owned by one scan id: the scan row plus its
child records, each collection append-only. -/
structure ScanStore where
  scan : ScanRec
  scanResults : List InsertScanResult
  vulnerabilities : List InsertVulnerability
  sslAnalyses : List InsertSslAnalysis
  securityHeaders : List InsertSecurityHeadersRec
deriving DecidableEq

/-- `MemStorage.createScan` for one scan id: a fresh `pending` scan row
with no children. -/
def createScanStore (id url : String) (t : Int) : ScanStore :=
  { scan :=
      { id := id
        url := url
        status := .pending
        results := none
        createdAt := t
        completedAt := none
        errorMessage := none }
    scanResults := []
    vulnerabilities := []
    sslAnalyses := []
    securityHeaders := [] }

/-- Effect of one storage call on the scan's slice of the store.  Writes
are additive except for the scan row itself; terminal updates never remove
child records. -/
def applyOp (s : ScanStore) : StorageOp → ScanStore
  | .setRunning => { s with scan := { s.scan with status := .running } }
  | .addScanResult r => { s with scanResults := s.scanResults ++ [r] }
  | .addVulnerability v => { s with vulnerabilities := s.vulnerabilities ++ [v] }
  | .addSslAnalysis a => { s with sslAnalyses := s.sslAnalyses ++ [a] }
  | .addSecurityHeaders h => { s with securityHeaders := s.securityHeaders ++ [h] }
  | .setCompleted summary t =>
    { s with
      scan :=
        { s.scan with
          status := .completed
          results := some summary
          completedAt := some t } }
  | .setFailed msg t =>
    { s with
      scan :=
        { s.scan with
          status := .failed
          errorMessage := some msg
          completedAt := some t } }

/-- Settled outcomes of every I/O step of one `performScan` run.
`urlParse` is `new URL(url).hostname` (`Except.error` when the constructor
throws, carrying the captured message); `outcomes` answers each port
probe; `sslStep` and `headersStep` are the inner-`try` analyzer steps
(`Except.error` when the analyzer or its storage write rejected, which the
inner `catch` recovers). -/
structure ScanEnv where
  urlParse : Except String String
  outcomes : Nat → ConnectOutcome
  sslStep : Except String InsertSslAnalysis
  headersStep : Except String InsertSecurityHeadersRec

/-- The fixed candidate port list of `performScan`. -/
def commonPorts : List Nat :=
  [21, 22, 23, 25, 53, 80, 110, 143, 443, 993, 995, 3389, 5432, 3306, 6379, 27017]

/-- `result.service || 'unknown'`. -/
def orUnknown (s : Option String) : String :=
  match s with
  | none => "unknown"
  | some v => if v == "" then "unknown" else v

/-- The SSL stage of `performScan`: attempted only when port 443 is open;
the inner `catch` turns a failure into no write. -/
def sslStageOps (httpsOpen : Bool) (step : Except String InsertSslAnalysis) :
    List StorageOp × Bool :=
  if httpsOpen then
    match step with
    | .ok a => ([StorageOp.addSslAnalysis a], true)
    | .error _ => ([], false)
  else ([], false)

/-- The security-headers stage of `performScan`: attempted when port 80
or 443 is open; the inner `catch` turns a failure into no write. -/
def headersStageOps (anyHttpOpen : Bool) (step : Except String InsertSecurityHeadersRec) :
    List StorageOp × Bool :=
  if anyHttpOpen then
    match step with
    | .ok h => ([StorageOp.addSecurityHeaders h], true)
    | .error _ => ([], false)
  else ([], false)

/-- `performScan` as its ordered sequence of storage writes: the `running`
update first; then, if the URL parse throws, only the outer-catch `failed`
update; otherwise the probe fan-out, the open-port rows, the correlated
vulnerabilities, the conditional SSL and header stages, and the final
`completed` update with the results summary. -/
def performScanOps (env : ScanEnv) (scanId : String) (t : Int) : List StorageOp :=
  StorageOp.setRunning ::
    match env.urlParse with
    | .error msg => [StorageOp.setFailed msg t]
    | .ok hostname =>
      let results := commonPorts.map fun port => scanPort hostname port (env.outcomes port)
      let openResults := results.filter fun r => r.state == "open"
      let resultOps := openResults.map fun r =>
        StorageOp.addScanResult
          { scanId := scanId
            port := r.port
            protocol := r.protocol
            service := orUnknown r.service
            version := none
            state := r.state
            riskLevel := getRiskLevel r.port ((r.service).getD "") }
      let vulns := analyzeVulnerabilities openResults
      let vulnOps := vulns.map fun v =>
        StorageOp.addVulnerability
          { scanId := scanId
            title := v.title
            description := v.description
            severity := v.severity
            recommendation := v.recommendation }
      let httpsOpen := results.any fun r => r.port == 443 && r.state == "open"
      let httpOpen := results.any fun r => r.port == 80 && r.state == "open"
      let sslStage := sslStageOps httpsOpen env.sslStep
      let headersStage := headersStageOps (httpsOpen || httpOpen) env.headersStep
      resultOps ++ vulnOps ++ sslStage.1 ++ headersStage.1 ++
        [StorageOp.setCompleted
          { totalPorts := results.length
            openPorts := openResults.length
            vulnerabilities := vulns.length
            sslAnalyzed := sslStage.2
            securityHeadersAnalyzed := headersStage.2 } t]

/-- One full orchestrator run over the scan's store slice. -/
def runScanModel (env : ScanEnv) (scanId url : String) (t0 t : Int) : ScanStore :=
  (performScanOps env scanId t).foldl applyOp (createScanStore scanId url t0)

/-! ## Route layer (`registerRoutes`, `POST /api/scans`)

The request handler parses the body, validates the URL, and only then
creates the scan row and launches the orchestrator.  `urlParses` abstracts
the WHATWG `new URL` constructor (the platform primitive); `body` is the
zod-validated `url` field (`none` when body validation failed). -/

structure AppStore where
  scans : List ScanRec
  scanResults : List InsertScanResult
  vulnerabilities : List InsertVulnerability
deriving DecidableEq

/-- `MemStorage.createScan` at the store level: appends a fresh `pending`
scan row and returns it. -/
def memCreateScan (store : AppStore) (id url : String) (t : Int) : AppStore × ScanRec :=
  let scan : ScanRec :=
    { id := id
      url := url
      status := .pending
      results := none
      createdAt := t
      completedAt := none
      errorMessage := none }
  ({ store with scans := store.scans ++ [scan] }, scan)

inductive ApiResponse where
  | ok (scan : ScanRec)
  | badRequest (msg : String)
deriving DecidableEq

/-- The `POST /api/scans` handler up to its response: body validation,
then URL validation, then — only on success — `storage.createScan` (the
asynchronous `performScan` launch mutates the store afterwards and is
modelled separately by `performScanOps`). -/
def startScan (urlParses : String → Bool) (body : Option String) (store : AppStore)
    (newId : String) (t : Int) : ApiResponse × AppStore :=
  match body with
  | none => (.badRequest "Invalid request data", store)
  | some url =>
    if urlParses url then
      let created := memCreateScan store newId url t
      (.ok created.2, created.1)
    else (.badRequest "Invalid URL format", store)

/-! ## Concrete environments used as proof witnesses -/

/-- A run whose URL parse throws with message `"boom"`. -/
def envBadRun : ScanEnv :=
  { urlParse := .error "boom"
    outcomes := fun _ => .connError
    sslStep := .error ""
    headersStep := .error "" }

/-- A run against `example.com` with ports 80 and 443 open whose SSL and
header analyzer steps both fail and are recovered by their inner catches. -/
def envSslFailRun : ScanEnv :=
  { urlParse := .ok "example.com"
    outcomes := fun port => if port == 443 || port == 80 then .success else .connError
    sslStep := .error "SSL analysis failed"
    headersStep := .error "Security headers analysis failed" }

/-! ## Helper lemmas -/

/-- `calculateSslGrade` is determined by its six deduction triggers. -/
theorem calculateSslGrade_eq_mkGrade (c : CertificateInfo) (ps : List String) (now : Int) :
    calculateSslGrade c ps now =
      mkGrade (isExpired c now) (expiresSoon c now) (keyWeakCond c.bits) (sigWeakCond c.sigalg)
        (oldTlsSupported ps) (tls13Missing ps) := by
  unfold calculateSslGrade mkGrade isExpired expiresSoon oldTlsSupported tls13Missing
  by_cases h1 : c.valid_to ≤ now <;>
    by_cases h2 : msCeilDays (c.valid_to - now) < 30 <;>
      simp [h1, h2]

/-- Finite check of the TLS grading facts over the six boolean triggers of
two runs, the second triggering at least the deductions of the first. -/
theorem mkGrade_facts :
    ∀ e s k g o n e' s' k' g' o' n' : Bool,
      (e = true → e' = true) → (s = true → s' = true) → (k = true → k' = true) →
      (g = true → g' = true) → (o = true → o' = true) → (n = true → n' = true) →
      ((mkGrade e s k g o n).score =
        max 0 (100 - (if e then 50 else if s then 20 else 0) - (if k then 30 else 0)
          - (if g then 20 else 0) - (if o then 15 else 0) - (if n then 10 else 0)) ∧
       0 ≤ (mkGrade e s k g o n).score ∧ (mkGrade e s k g o n).score ≤ 100 ∧
       (mkGrade e s k g o n).grade = gradeOfScore (mkGrade e s k g o n).score ∧
       (mkGrade e s k g o n).vulnerabilities.length =
         ((if e then 1 else 0) + (if !e && s then 1 else 0) + (if k then 1 else 0)
           + (if g then 1 else 0) + (if o then 1 else 0) + (if n then 1 else 0)) ∧
       (mkGrade e' s' k' g' o' n').score ≤ (mkGrade e s k g o n).score) := by
  decide

/-- Open ports outside the correlation table produce no vulnerability. -/
theorem analyzeVulnerabilities_eq_nil (rs : List PortProbeResult)
    (h : ∀ r ∈ rs, r.state = "open" → r.port ∉ [21, 22, 23, 3306, 5432, 27017, 6379]) :
    analyzeVulnerabilities rs = [] := by
  induction rs with
  | nil => rfl
  | cons r rest ih =>
    have ihr := ih fun x hx hs => h x (List.mem_cons_of_mem r hx) hs
    simp only [analyzeVulnerabilities, ihr, List.append_nil]
    by_cases hs : r.state = "open"
    · have hmem := h r (List.mem_cons_self r rest) hs
      simp only [List.mem_cons, List.not_mem_nil, or_false, not_or] at hmem
      obtain ⟨h21, h22, h23, h3306, h5432, h27017, h6379⟩ := hmem
      simp [hs, List.contains, List.elem,
        beq_eq_false_iff_ne.mpr h21, beq_eq_false_iff_ne.mpr h22,
        beq_eq_false_iff_ne.mpr h23, beq_eq_false_iff_ne.mpr h3306,
        beq_eq_false_iff_ne.mpr h5432, beq_eq_false_iff_ne.mpr h27017,
        beq_eq_false_iff_ne.mpr h6379]
    · simp [beq_eq_false_iff_ne.mpr hs]

/-- The severity-deduction fold is 100 minus the weighted severity counts. -/
theorem cloudDeduction_sum (l : List CloudSecurityFinding) (a : Int) :
    l.foldl (fun score f => score - sevDeduction f.severity) a =
      a - (25 * (countSev l .critical : Int) + 15 * (countSev l .high : Int)
        + 10 * (countSev l .medium : Int) + 5 * (countSev l .low : Int)) := by
  induction l generalizing a with
  | nil => simp [countSev]
  | cons f rest ih =>
    rw [List.foldl_cons, ih]
    cases hs : f.severity <;>
      simp [countSev, List.filter_cons, hs, sevDeduction] <;> omega

/-- Membership in a conditional singleton block. -/
theorem mem_ite_nil {α : Type} (x : α) (c : Prop) [Decidable c] (l : List α) :
    x ∈ (if c then l else []) ↔ c ∧ x ∈ l := by
  split <;> simp_all

/-! ## Claim theorems -/

/-- C1 counterexample: the claim deducts 30 whenever the key size is
present and under 2048 bits, but for a certificate reporting a key size of
0 bits the code's JavaScript truthiness check skips the deduction:
`calculateSslGrade` returns score 100 with no vulnerability, while the
claimed formula gives 70. -/
theorem C1_keysize_zero_counterexample :
    (calculateSslGrade zeroKeyCert ["TLSv1.3", "TLSv1.2"] 0).score = 100 ∧
    (calculateSslGrade zeroKeyCert ["TLSv1.3", "TLSv1.2"] 0).vulnerabilities = [] ∧
    zeroKeyCert.bits = some 0 ∧
    specSslScore zeroKeyCert ["TLSv1.3", "TLSv1.2"] 0 = 70 ∧
    (calculateSslGrade zeroKeyCert ["TLSv1.3", "TLSv1.2"] 0).score ≠
      specSslScore zeroKeyCert ["TLSv1.3", "TLSv1.2"] 0 := by
  decide

/-- C1 (amended): `calculateSslGrade` starts from 100 and applies exactly
the five deductions — 50 for an expired certificate, else 20 when it
expires in fewer than 30 days; 30 when the key size is present, nonzero
and under 2048 bits; 20 when the signature algorithm contains "sha1"
case-insensitively; 15 when TLSv1 or TLSv1.1 is supported; 10 when TLSv1.3
is not — clamps the score to [0,100], appends one vulnerability string per
applied deduction, derives the grade from the fixed threshold ladder of
the score, and is monotonically non-increasing in the trigger conditions. -/
theorem C1_tls_grading (c c' : CertificateInfo) (ps ps' : List String) (n n' : Int)
    (h1 : isExpired c n = true → isExpired c' n' = true)
    (h2 : expiresSoon c n = true → expiresSoon c' n' = true)
    (h3 : keyWeakCond c.bits = true → keyWeakCond c'.bits = true)
    (h4 : sigWeakCond c.sigalg = true → sigWeakCond c'.sigalg = true)
    (h5 : oldTlsSupported ps = true → oldTlsSupported ps' = true)
    (h6 : tls13Missing ps = true → tls13Missing ps' = true) :
    (calculateSslGrade c ps n).score =
      max 0 (100 - (if isExpired c n then 50 else if expiresSoon c n then 20 else 0)
        - (if keyWeakCond c.bits then 30 else 0) - (if sigWeakCond c.sigalg then 20 else 0)
        - (if oldTlsSupported ps then 15 else 0) - (if tls13Missing ps then 10 else 0)) ∧
    0 ≤ (calculateSslGrade c ps n).score ∧ (calculateSslGrade c ps n).score ≤ 100 ∧
    (calculateSslGrade c ps n).grade = gradeOfScore (calculateSslGrade c ps n).score ∧
    (calculateSslGrade c ps n).vulnerabilities.length =
      ((if isExpired c n then 1 else 0) + (if !(isExpired c n) && expiresSoon c n then 1 else 0)
        + (if keyWeakCond c.bits then 1 else 0) + (if sigWeakCond c.sigalg then 1 else 0)
        + (if oldTlsSupported ps then 1 else 0) + (if tls13Missing ps then 1 else 0)) ∧
    (calculateSslGrade c' ps' n').score ≤ (calculateSslGrade c ps n).score := by
  rw [calculateSslGrade_eq_mkGrade c ps n, calculateSslGrade_eq_mkGrade c' ps' n']
  exact mkGrade_facts (isExpired c n) (expiresSoon c n) (keyWeakCond c.bits)
    (sigWeakCond c.sigalg) (oldTlsSupported ps) (tls13Missing ps)
    (isExpired c' n') (expiresSoon c' n') (keyWeakCond c'.bits)
    (sigWeakCond c'.sigalg) (oldTlsSupported ps') (tls13Missing ps')
    h1 h2 h3 h4 h5 h6

/-- C1 witness: the grading facts evaluated on a healthy certificate and
an expired weak-key SHA-1 certificate. -/
theorem C1_tls_grading_witness :
    (calculateSslGrade expiredWeakCert ["TLSv1"] 0).score ≤
      (calculateSslGrade goodCert ["TLSv1.3", "TLSv1.2"] 0).score ∧
    (calculateSslGrade goodCert ["TLSv1.3", "TLSv1.2"] 0).grade =
      gradeOfScore (calculateSslGrade goodCert ["TLSv1.3", "TLSv1.2"] 0).score := by
  have h := C1_tls_grading goodCert expiredWeakCert ["TLSv1.3", "TLSv1.2"] ["TLSv1"] 0 0
    (by decide) (by decide) (by decide) (by decide) (by decide) (by decide)
  exact ⟨h.2.2.2.2.2, h.2.2.2.1⟩

/-- C3: a port probe always settles to exactly one classified result whose
state is open, closed or filtered — a successful connect maps to `open`
with a service name, a timeout to `filtered`, and any socket error to
`closed`; the probe function is total (never raises) and probes once. -/
theorem C3_port_probe (host : String) (port : Nat) (outcome : ConnectOutcome) :
    ((scanPort host port outcome).state = "open" ∨
      (scanPort host port outcome).state = "closed" ∨
      (scanPort host port outcome).state = "filtered") ∧
    (outcome = .success →
      scanPort host port outcome =
        { port := port, state := "open", service := some (getServiceName port)
          protocol := "tcp" }) ∧
    (outcome = .timeout →
      scanPort host port outcome =
        { port := port, state := "filtered", service := none, protocol := "tcp" }) ∧
    (outcome = .connError →
      scanPort host port outcome =
        { port := port, state := "closed", service := none, protocol := "tcp" }) := by
  cases outcome <;> simp [scanPort]

/-- C3 witness: the three outcomes of probing port 22. -/
theorem C3_port_probe_witness :
    scanPort "example.com" 22 .success =
      { port := 22, state := "open", service := some "ssh", protocol := "tcp" } ∧
    scanPort "example.com" 22 .timeout =
      { port := 22, state := "filtered", service := none, protocol := "tcp" } ∧
    scanPort "example.com" 22 .connError =
      { port := 22, state := "closed", service := none, protocol := "tcp" } := by
  refine ⟨?_, ?_, ?_⟩
  · rw [(C3_port_probe "example.com" 22 .success).2.1 rfl]
    decide
  · exact (C3_port_probe "example.com" 22 .timeout).2.2.1 rfl
  · exact (C3_port_probe "example.com" 22 .connError).2.2.2 rfl

/-- C4: the vulnerability correlator is a pure table-driven function of
the open ports — open ports 21 and 22 yield exactly the FTP (high) and SSH
(medium) findings in either input order, and a list whose open ports all
lie outside the rule table (in particular an empty open-port set) yields
no vulnerability. -/
theorem C4_correlator (rs : List PortProbeResult)
    (h : ∀ r ∈ rs, r.state = "open" → r.port ∉ [21, 22, 23, 3306, 5432, 27017, 6379]) :
    analyzeVulnerabilities
      [{ port := 21, state := "open", service := some "ftp", protocol := "tcp" },
       { port := 22, state := "open", service := some "ssh", protocol := "tcp" }] =
      [ftpVuln, sshVuln] ∧
    analyzeVulnerabilities
      [{ port := 22, state := "open", service := some "ssh", protocol := "tcp" },
       { port := 21, state := "open", service := some "ftp", protocol := "tcp" }] =
      [sshVuln, ftpVuln] ∧
    ftpVuln.title = "FTP Service Detected" ∧ ftpVuln.severity = "high" ∧
    sshVuln.title = "SSH Service Exposed" ∧ sshVuln.severity = "medium" ∧
    analyzeVulnerabilities rs = [] ∧
    analyzeVulnerabilities [] = [] := by
  exact ⟨by decide, by decide, rfl, rfl, rfl, rfl, analyzeVulnerabilities_eq_nil rs h, rfl⟩

/-- C4 witness: a list with one open untabled port and one closed tabled
port produces no vulnerability. -/
theorem C4_correlator_witness :
    analyzeVulnerabilities
      [{ port := 80, state := "open", service := some "http", protocol := "tcp" },
       { port := 21, state := "closed", service := none, protocol := "tcp" }] = [] := by
  exact (C4_correlator
    [{ port := 80, state := "open", service := some "http", protocol := "tcp" },
     { port := 21, state := "closed", service := none, protocol := "tcp" }]
    (by decide)).2.2.2.2.2.2.1

/-- C5: on hostname `mybucket.s3.amazonaws.com` the pattern table detects
provider `aws` with resource type `storage` whatever the DNS fallback
would say, and the AWS rule evaluation includes the finding
`aws-s3-public-access`. -/
theorem C5_cloud_detection (reverseHostnames : Option (List String)) :
    detectCloudProvider "mybucket.s3.amazonaws.com" reverseHostnames =
      some ("aws", "storage") ∧
    ((performCloudSecurityAnalysis ("aws", "storage") "mybucket.s3.amazonaws.com").findings.map
      (fun f => f.id)).contains "aws-s3-public-access" = true := by
  constructor
  · have h : findPatternMatch "mybucket.s3.amazonaws.com" = some ("aws", "storage") := by
      decide
    simp [detectCloudProvider, h]
  · decide

/-- C6: the cloud score is 100 minus 25/15/10/5 per critical/high/medium/
low finding clamped below at 0, and the aggregate risk level is critical
given any critical finding, high above two high findings, medium given any
high finding or more than three medium findings, else low. -/
theorem C6_cloud_scoring (findings : List CloudSecurityFinding) :
    cloudScoreOf findings =
      max 0 (100 - 25 * (countSev findings .critical : Int)
        - 15 * (countSev findings .high : Int) - 10 * (countSev findings .medium : Int)
        - 5 * (countSev findings .low : Int)) ∧
    cloudRiskLevelOf findings =
      (if 0 < countSev findings .critical then Severity.critical
       else if 2 < countSev findings .high then Severity.high
       else if 0 < countSev findings .high ∨ 3 < countSev findings .medium then Severity.medium
       else Severity.low) := by
  constructor
  · rw [cloudScoreOf, cloudDeduction_sum]
    congr 1
    ring
  · rfl

/-- C9: the scan-creation route rejects a request whose URL does not parse
with an "Invalid URL format" input error and leaves the store untouched —
no scan row and no child record is created, because URL validation runs
strictly before `storage.createScan`. -/
theorem C9_url_validation (urlParses : String → Bool) (url : String) (store : AppStore)
    (newId : String) (t : Int) (h : urlParses url = false) :
    startScan urlParses (some url) store newId t = (.badRequest "Invalid URL format", store) ∧
    (startScan urlParses (some url) store newId t).2.scans = store.scans ∧
    (startScan urlParses (some url) store newId t).2.scanResults = store.scanResults ∧
    (startScan urlParses (some url) store newId t).2.vulnerabilities = store.vulnerabilities := by
  simp [startScan, h]

/-- C9 witness: rejecting `"not a url"` on the empty store. -/
theorem C9_url_validation_witness :
    startScan (fun _ => false) (some "not a url") ⟨[], [], []⟩ "scan-1" 0 =
      (.badRequest "Invalid URL format", (⟨[], [], []⟩ : AppStore)) := by
  exact (C9_url_validation (fun _ => false) "not a url" ⟨[], [], []⟩ "scan-1" 0 rfl).1

/-! ## Orchestrator lemmas -/

/-- When the URL parse throws, the run performs exactly the `running`
update followed by the outer-catch `failed` update. -/
theorem performScanOps_error (env : ScanEnv) (scanId : String) (t : Int) (msg : String)
    (h : env.urlParse = .error msg) :
    performScanOps env scanId t = [.setRunning, .setFailed msg t] := by
  simp [performScanOps, h]

/-- The SSL stage never emits a failure write. -/
theorem setFailed_not_mem_sslStage (msg : String) (tf : Int) (b : Bool)
    (step : Except String InsertSslAnalysis) :
    (StorageOp.setFailed msg tf ∈ (sslStageOps b step).1) = False := by
  cases b <;> cases step <;> simp [sslStageOps]

/-- The header stage never emits a failure write. -/
theorem setFailed_not_mem_headersStage (msg : String) (tf : Int) (b : Bool)
    (step : Except String InsertSecurityHeadersRec) :
    (StorageOp.setFailed msg tf ∈ (headersStageOps b step).1) = False := by
  cases b <;> cases step <;> simp [headersStageOps]

/-- A run whose URL parse succeeds never writes a failure update. -/
theorem performScanOps_ok_no_setFailed (env : ScanEnv) (scanId : String) (t : Int)
    (hn : String) (h : env.urlParse = .ok hn) (msg : String) (tf : Int) :
    StorageOp.setFailed msg tf ∉ performScanOps env scanId t := by
  intro hop
  simp [performScanOps, h, setFailed_not_mem_sslStage, setFailed_not_mem_headersStage] at hop

/-- A run whose URL parse succeeds always ends `completed`, with the
completion timestamp and a results summary set. -/
theorem runScanModel_ok (env : ScanEnv) (scanId url hn : String) (t0 t : Int)
    (h : env.urlParse = .ok hn) :
    (runScanModel env scanId url t0 t).scan.status = .completed ∧
    (runScanModel env scanId url t0 t).scan.completedAt = some t ∧
    (runScanModel env scanId url t0 t).scan.results.isSome = true := by
  simp only [runScanModel, performScanOps, h]
  simp [List.foldl_append, applyOp]

/-! ## Remaining claim theorems -/

/-- C7: when certificate retrieval fails, `analyzeSslCertificate` returns
(rather than throws) the sentinel failed posture — certificate invalid,
grade F, score 0, the single vulnerability "SSL/TLS connection failed" —
and an orchestrator run whose SSL step fails still completes: a TLS
failure never aborts the scan, and writes no SSL row. -/
theorem C7_ssl_failure_sentinel (scanId hostname e : String)
    (protos ciphers : List String) (hsts : Bool) (now : Int)
    (env : ScanEnv) (url hn : String) (t0 t : Int)
    (hurl : env.urlParse = .ok hn) (hssl : env.sslStep = .error e) :
    analyzeSslCertificate scanId hostname (.error e) protos ciphers hsts now =
      { scanId := scanId, hostname := hostname, certificateValid := false
        certificateExpiry := none, issuer := "Unknown", subject := "Unknown"
        signatureAlgorithm := "Unknown", keySize := none, protocolVersions := []
        cipherSuites := [], grade := "F", hasHSTS := false
        vulnerabilities := ["SSL/TLS connection failed"], score := 0
        daysUntilExpiry := none } ∧
    (∀ b, (sslStageOps b env.sslStep).1 = [] ∧ (sslStageOps b env.sslStep).2 = false) ∧
    (runScanModel env scanId url t0 t).scan.status = .completed := by
  refine ⟨rfl, ?_, (runScanModel_ok env scanId url hn t0 t hurl).1⟩
  intro b
  cases b <;> simp [sslStageOps, hssl]

/-- C7 witness: the sentinel posture and a completed run for the concrete
failing environment. -/
theorem C7_ssl_failure_sentinel_witness :
    analyzeSslCertificate "scan-1" "example.com" (.error "SSL analysis failed") [] [] false 0 =
      { scanId := "scan-1", hostname := "example.com", certificateValid := false
        certificateExpiry := none, issuer := "Unknown", subject := "Unknown"
        signatureAlgorithm := "Unknown", keySize := none, protocolVersions := []
        cipherSuites := [], grade := "F", hasHSTS := false
        vulnerabilities := ["SSL/TLS connection failed"], score := 0
        daysUntilExpiry := none } ∧
    (runScanModel envSslFailRun "scan-1" "https://example.com" 0 7).scan.status = .completed := by
  have h := C7_ssl_failure_sentinel "scan-1" "example.com" "SSL analysis failed" [] [] false 0
    envSslFailRun "https://example.com" "example.com" 0 7 rfl rfl
  exact ⟨h.1, h.2.2⟩

/-- C8: the scan lifecycle — a scan is created `pending`; the `running`
update is the first write of every run, before any probe result is
persisted; every run ends in exactly one terminal state, `completed` with
completion timestamp and results summary or `failed`; an exception
escaping the pipeline yields `failed` with the error message captured and
the completion timestamp set; `failed` is only ever entered from
`running`; and the failure write never removes already-persisted child
records. -/
theorem C8_scan_lifecycle (env : ScanEnv) (scanId url : String) (t0 t : Int) :
    (createScanStore scanId url t0).scan.status = .pending ∧
    (performScanOps env scanId t).head? = some .setRunning ∧
    ((runScanModel env scanId url t0 t).scan.status = .completed ∨
      (runScanModel env scanId url t0 t).scan.status = .failed) ∧
    ((runScanModel env scanId url t0 t).scan.status = .completed →
      (runScanModel env scanId url t0 t).scan.completedAt = some t ∧
      (runScanModel env scanId url t0 t).scan.results.isSome = true) ∧
    ((runScanModel env scanId url t0 t).scan.status = .failed →
      (runScanModel env scanId url t0 t).scan.completedAt = some t ∧
      (runScanModel env scanId url t0 t).scan.errorMessage.isSome = true) ∧
    (∀ msg, env.urlParse = .error msg →
      (runScanModel env scanId url t0 t).scan.status = .failed ∧
      (runScanModel env scanId url t0 t).scan.errorMessage = some msg ∧
      (runScanModel env scanId url t0 t).scan.completedAt = some t) ∧
    (∀ i msg tf, (performScanOps env scanId t).get? i = some (.setFailed msg tf) →
      (((performScanOps env scanId t).take i).foldl applyOp
        (createScanStore scanId url t0)).scan.status = .running) ∧
    (∀ s msg tf,
      (applyOp s (.setFailed msg tf)).scanResults = s.scanResults ∧
      (applyOp s (.setFailed msg tf)).vulnerabilities = s.vulnerabilities ∧
      (applyOp s (.setFailed msg tf)).sslAnalyses = s.sslAnalyses ∧
      (applyOp s (.setFailed msg tf)).securityHeaders = s.securityHeaders) := by
  cases henv : env.urlParse with
  | error msg =>
    have hops := performScanOps_error env scanId t msg henv
    refine ⟨rfl, rfl, ?_, ?_, ?_, ?_, ?_, ?_⟩
    · right
      simp [runScanModel, hops, applyOp]
    · intro hc
      rw [runScanModel, hops] at hc
      simp [applyOp] at hc
    · intro _
      constructor <;> simp [runScanModel, hops, applyOp]
    · intro m hm
      injection hm with hm
      subst hm
      refine ⟨?_, ?_, ?_⟩ <;> simp [runScanModel, hops, applyOp]
    · intro i m tf hget
      rw [hops] at hget ⊢
      match i with
      | 0 => simp at hget
      | 1 => simp [applyOp]
      | (n + 2) => simp at hget
    · intro s m tf
      exact ⟨rfl, rfl, rfl, rfl⟩
  | ok hn =>
    have hrun := runScanModel_ok env scanId url hn t0 t henv
    refine ⟨rfl, rfl, Or.inl hrun.1, fun _ => ⟨hrun.2.1, hrun.2.2⟩, ?_, ?_, ?_, ?_⟩
    · intro hf
      rw [hrun.1] at hf
      simp at hf
    · intro m hm
      simp at hm
    · intro i m tf hget
      exact absurd (List.get?_mem hget) (performScanOps_ok_no_setFailed env scanId t hn henv m tf)
    · intro s m tf
      exact ⟨rfl, rfl, rfl, rfl⟩

/-- C8 witness: the failing run reaches `failed` with its message from the
`running` state, and the closed-ports run completes. -/
theorem C8_scan_lifecycle_witness :
    (runScanModel envBadRun "scan-1" "https://example.com" 0 7).scan.status = .failed ∧
    (runScanModel envBadRun "scan-1" "https://example.com" 0 7).scan.errorMessage = some "boom" ∧
    (((performScanOps envBadRun "scan-1" 7).take 1).foldl applyOp
      (createScanStore "scan-1" "https://example.com" 0)).scan.status = .running := by
  have h := C8_scan_lifecycle envBadRun "scan-1" "https://example.com" 0 7
  refine ⟨(h.2.2.2.2.2.1 "boom" rfl).1, (h.2.2.2.2.2.1 "boom" rfl).2.1,
    h.2.2.2.2.2.2.1 1 "boom" 7 (by decide)⟩

/-- C2: the header-scoring function gives a maximally strong header set
score 100 and grade A+, and an all-missing header set score 0, grade F,
with `missingHeaders` listing exactly the nine recognized header names. -/
theorem C2_header_scoring (a : SecurityHeadersAnalysis) (hh : HstsInfo) (hc : CspInfo)
    (m : Nat) (xfo xcto xxss rp coep coop corp : String)
    (e1 : a.hsts = some hh) (e2 : hh.present = true) (e3 : hh.maxAge = some m)
    (e4 : 31536000 ≤ m) (e5 : hh.includeSubDomains = true) (e6 : hh.preload = true)
    (e7 : a.csp = some hc) (e8 : hc.present = true) (e9 : 3 ≤ hc.directives.length)
    (e10 : hc.hasUnsafeInline = false) (e11 : hc.hasUnsafeEval = false)
    (e12 : a.xFrameOptions = some xfo) (e13 : xfo ≠ "") (e14 : lowerStr xfo ≠ "allowall")
    (e15 : a.xContentTypeOptions = some xcto) (e16 : lowerStr xcto = "nosniff")
    (e17 : a.xXSSProtection = some xxss) (e18 : xxss ≠ "") (e19 : xxss ≠ "0")
    (e20 : a.referrerPolicy = some rp) (e21 : rp ≠ "")
    (e22 : lowerStr rp ≠ "unsafe-url") (e23 : lowerStr rp ≠ "no-referrer-when-downgrade")
    (e24 : a.crossOriginEmbedderPolicy = some coep) (e25 : coep ≠ "")
    (e26 : a.crossOriginOpenerPolicy = some coop) (e27 : coop ≠ "")
    (e28 : a.crossOriginResourcePolicy = some corp) (e29 : corp ≠ "") :
    (calculateSecurityScore a).score = 100 ∧
    (calculateSecurityScore a).grade = "A+" ∧
    (calculateSecurityScore emptyHeadersAnalysis).score = 0 ∧
    (calculateSecurityScore emptyHeadersAnalysis).grade = "F" ∧
    (identifyIssues emptyHeadersAnalysis).missingHeaders =
      ["Strict-Transport-Security", "Content-Security-Policy", "X-Frame-Options",
       "X-Content-Type-Options", "X-XSS-Protection", "Referrer-Policy",
       "Cross-Origin-Embedder-Policy", "Cross-Origin-Opener-Policy",
       "Cross-Origin-Resource-Policy"] := by
  have hmax : hstsMaxAgeWeak hh = false := by
    simp only [hstsMaxAgeWeak, e3, Bool.or_eq_false_iff, beq_eq_false_iff_ne,
      decide_eq_false_iff_not]
    omega
  have d1 : hstsDeduction a = 0 := by
    simp [hstsDeduction, e1, e2, e5, e6, hmax]
  have hlen : ¬ hc.directives.length < 3 := by omega
  have d2 : cspDeduction a = 0 := by
    simp [cspDeduction, e7, e8, e10, e11, hlen]
  have d3 : xfoDeduction a = 0 := by
    simp [xfoDeduction, e12, beq_eq_false_iff_ne.mpr e13, beq_eq_false_iff_ne.mpr e14]
  have hcne : xcto ≠ "" := by
    intro hx
    rw [hx] at e16
    exact absurd e16 (by decide)
  have d4 : xctoDeduction a = 0 := by
    simp [xctoDeduction, e15, beq_eq_false_iff_ne.mpr hcne, e16]
  have d5 : xxssDeduction a = 0 := by
    simp [xxssDeduction, e17, beq_eq_false_iff_ne.mpr e18, beq_eq_false_iff_ne.mpr e19]
  have d6 : referrerDeduction a = 0 := by
    simp [referrerDeduction, e20, List.contains, List.elem,
      beq_eq_false_iff_ne.mpr e21, beq_eq_false_iff_ne.mpr e22, beq_eq_false_iff_ne.mpr e23]
  have d7 : crossOriginDeduction a = 0 := by
    simp [crossOriginDeduction, optPresent, e24, e26, e28,
      beq_eq_false_iff_ne.mpr e25, beq_eq_false_iff_ne.mpr e27, beq_eq_false_iff_ne.mpr e29]
  refine ⟨?_, ?_, by decide, by decide, by decide⟩
  · simp [calculateSecurityScore, d1, d2, d3, d4, d5, d6, d7]
  · simp [calculateSecurityScore, headerGradeOfScore, d1, d2, d3, d4, d5, d6, d7]

/-- C2 witness: the scoring facts evaluated on the concrete maximally
strong header set. -/
theorem C2_header_scoring_witness :
    (calculateSecurityScore strongHeadersAnalysis).score = 100 ∧
    (calculateSecurityScore strongHeadersAnalysis).grade = "A+" := by
  have h := C2_header_scoring strongHeadersAnalysis
    { present := true, maxAge := some 63072000, includeSubDomains := true, preload := true }
    { present := true, directives := ["default-src", "script-src", "object-src"]
      hasUnsafeInline := false, hasUnsafeEval := false }
    63072000 "DENY" "nosniff" "1; mode=block" "strict-origin-when-cross-origin"
    "require-corp" "same-origin" "same-origin"
    rfl rfl rfl (by decide) rfl rfl rfl rfl (by decide) rfl rfl
    rfl (by decide) (by decide) rfl (by decide) rfl (by decide) (by decide)
    rfl (by decide) (by decide) (by decide) rfl (by decide) rfl (by decide) rfl (by decide)
  exact ⟨h.1, h.2.1⟩

/-- The ALLOWALL weak-header message appears exactly for the verbatim
uppercase value. -/
theorem allowall_msg_mem_weak (a : SecurityHeadersAnalysis) :
    ("X-Frame-Options set to ALLOWALL" ∈ (identifyIssues a).weakHeaders) ↔
      a.xFrameOptions = some "ALLOWALL" := by
  unfold identifyIssues
  cases hc : a.csp with
  | none =>
    simp [List.mem_append, mem_ite_nil, beq_iff_eq]
  | some c =>
    by_cases hp : c.present <;>
      simp [List.mem_append, mem_ite_nil, hp, beq_iff_eq]

/-- C10: the ALLOWALL check is inconsistent between scoring and reporting:
any case variant of ALLOWALL as the X-Frame-Options value takes the
10-point scoring deduction (lower-cased comparison), but `identifyIssues`
adds the ALLOWALL weak-header message only for the exact uppercase value,
so the lowercase value is penalized in the score yet absent from
`weakHeaders`. -/
theorem C10_allowall_inconsistency (a : SecurityHeadersAnalysis) (s : String)
    (h1 : a.xFrameOptions = some s) (h2 : lowerStr s = "allowall") :
    xfoDeduction a = 10 ∧
    ("X-Frame-Options set to ALLOWALL" ∈ (identifyIssues a).weakHeaders ↔ s = "ALLOWALL") ∧
    xfoDeduction { emptyHeadersAnalysis with xFrameOptions := some "allowall" } = 10 ∧
    "X-Frame-Options set to ALLOWALL" ∉
      (identifyIssues { emptyHeadersAnalysis with
        xFrameOptions := some "allowall" }).weakHeaders := by
  have hs : s ≠ "" := by
    intro h
    rw [h] at h2
    exact absurd h2 (by decide)
  refine ⟨?_, ?_, by decide, by decide⟩
  · simp [xfoDeduction, h1, beq_eq_false_iff_ne.mpr hs, h2]
  · rw [allowall_msg_mem_weak, h1]
    simp

/-- C10 witness: the lowercase value `allowall` takes the deduction but
produces no weak-header entry. -/
theorem C10_allowall_inconsistency_witness :
    xfoDeduction { emptyHeadersAnalysis with xFrameOptions := some "allowall" } = 10 ∧
    ¬ ("X-Frame-Options set to ALLOWALL" ∈
        (identifyIssues { emptyHeadersAnalysis with
          xFrameOptions := some "allowall" }).weakHeaders) := by
  have h := C10_allowall_inconsistency
    { emptyHeadersAnalysis with xFrameOptions := some "allowall" } "allowall" rfl (by decide)
  refine ⟨h.1, fun hm => ?_⟩
  have := h.2.1.mp hm
  exact absurd this (by decide)

end ScanGuard
